import Mathlib

/-!
Shallow embedding of the multi-source traffic-congestion resolution pipeline
(`traffic_data.py`) and the classification utilities (`utils.py`) of the
india-traffic-dashboard repository, together with theorems settling the
frozen claims about it.

Modelling conventions:
* Python floats are modelled as exact rationals (`ℚ`).
* `round(x, 1)` is modelled as round-half-up on exact rationals (`round1`);
  no property proved here depends on the tie-breaking convention.
* A network interaction is modelled by a `NetOutcome` value describing what
  the single HTTP request produced (a status code with an optional parsed
  JSON body, where `none` stands for a body `.json()` fails on) or which
  exception it raised.
* A Python function that can implicitly return `None` (by falling off the
  end of its body) is modelled with an `Option` result.
* The orchestrator returns `Except Unit …`; the `.error` case models an
  uncaught Python exception escaping `get_congestion_for_cities`.
-/

/-- Python `round(x, 1)`, modelled on exact rationals (round half up). -/
def round1 (q : ℚ) : ℚ := (⌊q * 10 + 1 / 2⌋ : ℚ) / 10

/-- Python `int(x)` on a real value: truncation toward zero. -/
def pyInt (q : ℚ) : ℤ := if q < 0 then ⌈q⌉ else ⌊q⌋

/-- Does `hay` start with `sub`? (helper for the Python `in` substring test). -/
def beginsWith : List Char → List Char → Bool
  | [], _ => true
  | _ :: _, [] => false
  | a :: as, b :: bs => a == b && beginsWith as bs

/-- Does `hay` contain `sub` as a contiguous subsequence? -/
def containsSeq (sub : List Char) : List Char → Bool
  | [] => beginsWith sub []
  | c :: rest => beginsWith sub (c :: rest) || containsSeq sub rest

/-- Python substring test `sub in hay` on strings. -/
def strContains (hay sub : String) : Bool := containsSeq sub.data hay.data

/-- Fields of the `flowSegmentData` object of the primary provider's JSON
reply; `none` models an absent key (`dict.get` supplies the default). -/
structure FlowSegmentData where
  currentSpeed : Option ℚ
  freeFlowSpeed : Option ℚ
  currentTravelTime : Option ℚ
  freeFlowTravelTime : Option ℚ
  confidence : Option ℚ
deriving DecidableEq

/-- Top-level JSON reply of the primary provider (TomTom). -/
structure TomTomPayload where
  flowSegmentData : Option FlowSegmentData
deriving DecidableEq

/-- One element of the `routes` array of the secondary provider's reply. -/
structure Route where
  duration : Option ℚ
  distance : Option ℚ
deriving DecidableEq

/-- Top-level JSON reply of the secondary provider (MapmyIndia);
`routes = none` models an absent `"routes"` key. -/
structure RoutePayload where
  routes : Option (List Route)
deriving DecidableEq

/-- What a single HTTP request produced: a response with a status code and
an optional parsed body (`none` = the body is not valid JSON, so `.json()`
raises), or one of the exception classes the clients distinguish. -/
inductive NetOutcome (β : Type) where
  | response (status : ℕ) (body : Option β)
  | timeout
  | connError
  | exn
deriving DecidableEq

/-- The tuple `(congestion, source, current_speed, free_flow_speed)` both
clients and the simulator return; `congestion = none` models Python `None`
and speed `none` models the `"N/A"` marker. -/
structure FetchResult where
  congestion : Option ℚ
  source : String
  current_speed : Option ℚ
  free_flow_speed : Option ℚ
deriving DecidableEq

/-- Congestion arithmetic shared by both live clients
(`traffic_data.py:49-54` and `traffic_data.py:135-138`):
`round((1 - current/freeflow) * 100, 1)` then `max(0, min(100, ·))`. -/
def deriveCongestion (current_speed free_flow_speed : ℚ) : ℚ :=
  max 0 (min 100 (round1 ((1 - current_speed / free_flow_speed) * 100)))

/-- `get_traffic_from_tomtom` (`traffic_data.py:13-89`), as a function of
the outcome of its single HTTP request.  On a 200 response the speed
fields default to `currentSpeed = 0`, `freeFlowSpeed = 1` when missing. -/
def get_traffic_from_tomtom (net : NetOutcome TomTomPayload) : FetchResult :=
  match net with
  | .response status body =>
    if status = 200 then
      match body with
      | none => ⟨none, "TomTom Error", none, none⟩
      | some data =>
        let flow_data := data.flowSegmentData.getD ⟨none, none, none, none, none⟩
        let current_speed := flow_data.currentSpeed.getD 0
        let free_flow_speed := flow_data.freeFlowSpeed.getD 1
        if 0 < free_flow_speed then
          { congestion := some (deriveCongestion current_speed free_flow_speed)
            source := "TomTom Traffic API"
            current_speed := some current_speed
            free_flow_speed := some free_flow_speed }
        else ⟨none, "TomTom Failed", none, none⟩
    else if status = 401 then ⟨none, "TomTom Auth Failed", none, none⟩
    else if status = 403 then ⟨none, "TomTom Forbidden", none, none⟩
    else if status = 429 then ⟨none, "TomTom Rate Limited", none, none⟩
    else ⟨none, "TomTom Failed", none, none⟩
  | .timeout => ⟨none, "TomTom Timeout", none, none⟩
  | .connError => ⟨none, "TomTom Connection Failed", none, none⟩
  | .exn => ⟨none, "TomTom Error", none, none⟩

/-- `get_traffic_from_mapmyindia` (`traffic_data.py:92-156`).  The result
is `none` exactly when the Python function falls off the end of its body
and implicitly returns `None`: a 200 response whose body has no non-empty
`routes` array, or whose first route fails `distance > 0 and duration > 0`
(`duration` defaults to 0, `distance` to 1 when the key is missing).
All exceptions are caught by the single `except Exception` clause. -/
def get_traffic_from_mapmyindia (net : NetOutcome RoutePayload) : Option FetchResult :=
  match net with
  | .response status body =>
    if status = 200 then
      match body with
      | none => some ⟨none, "MapmyIndia Error", none, none⟩
      | some data =>
        match data.routes with
        | some (route :: _) =>
          let duration := route.duration.getD 0
          let distance := route.distance.getD 1
          if 0 < distance ∧ 0 < duration then
            let current_speed := (distance / 1000) / (duration / 3600)
            let free_flow_speed : ℚ := 50
            some { congestion := some (deriveCongestion current_speed free_flow_speed)
                   source := "MapmyIndia Route API"
                   current_speed := some (round1 current_speed)
                   free_flow_speed := some free_flow_speed }
          else none
        | _ => none
    else if status = 401 then some ⟨none, "MapmyIndia Auth Failed", none, none⟩
    else some ⟨none, "MapmyIndia Failed", none, none⟩
  | _ => some ⟨none, "MapmyIndia Error", none, none⟩

/-- The time data `get_simulated_congestion` reads from `datetime.now()`:
the hour of day and the weekday (0 = Monday … 6 = Sunday). -/
structure SimTime where
  hour : ℕ
  weekday : ℕ
deriving DecidableEq

/-- Sum of the character codes of a city name (`sum(ord(c) for c in city)`). -/
def charCodeSum (s : String) : ℕ := (s.data.map Char.toNat).sum

/-- The simulator's deterministic seed (`traffic_data.py:172`):
`sum(ord(c) for c in city) + int(lat * 100) + int(lon * 100)`. -/
def simSeed (city : String) (lat lon : ℚ) : ℤ :=
  (charCodeSum city : ℤ) + pyInt (lat * 100) + pyInt (lon * 100)

/-- The simulator's base congestion (`traffic_data.py:180`):
`(seed % 40) + 20`.  Lean's `%` on `ℤ` agrees with Python's for the
positive divisor 40. -/
def simBase (city : String) (lat lon : ℚ) : ℤ :=
  simSeed city lat lon % 40 + 20

/-- The simulator's per-city factor table (`traffic_data.py:196-209`),
defaulting to 1.0 for unlisted cities. -/
def city_factors (city : String) : ℚ :=
  if city = "Mumbai" then 1.3
  else if city = "Delhi" then 1.25
  else if city = "Bengaluru" then 1.4
  else if city = "Chennai" then 1.1
  else if city = "Pune" then 1.15
  else if city = "Hyderabad" then 1.1
  else if city = "Kolkata" then 1.2
  else if city = "Ahmedabad" then 1.05
  else if city = "Jaipur" then 1.0
  else if city = "Lucknow" then 0.95
  else 1.0

/-- The simulator's rush-hour multiplier (`traffic_data.py:183-190`). -/
def rush_factor (hour : ℕ) : ℚ :=
  if 7 ≤ hour ∧ hour ≤ 10 then 1.5
  else if 17 ≤ hour ∧ hour ≤ 20 then 1.6
  else if 11 ≤ hour ∧ hour ≤ 16 then 1.2
  else 0.8

/-- The simulator's weekend reduction (`traffic_data.py:193`). -/
def weekend_factor (weekday : ℕ) : ℚ := if 5 ≤ weekday then 0.7 else 1.0

/-- The simulator's final congestion value (`traffic_data.py:212-214`):
`round(min(base * rush * weekend * cityFactor, 100), 1)`. -/
def simCongestion (city : String) (lat lon : ℚ) (t : SimTime) : ℚ :=
  round1 (min ((simBase city lat lon : ℚ) * rush_factor t.hour
    * weekend_factor t.weekday * city_factors city) 100)

/-- `get_simulated_congestion` (`traffic_data.py:159-226`), with the
wall-clock readings passed in explicitly as a `SimTime`. -/
def get_simulated_congestion (city : String) (lat lon : ℚ) (t : SimTime) : FetchResult :=
  let congestion := simCongestion city lat lon t
  let free_flow_speed : ℚ := 50
  let current_speed := round1 (free_flow_speed * (1 - congestion / 100))
  { congestion := some congestion
    source := "AI Prediction Model"
    current_speed := some current_speed
    free_flow_speed := some free_flow_speed }

/-- One row of the orchestrator's `results` list (`traffic_data.py:291-300`,
without the wall-clock `timestamp` field). -/
structure CityRow where
  city : String
  lat : ℚ
  lon : ℚ
  congestion : Option ℚ
  source : String
  current_speed : Option ℚ
  free_flow_speed : Option ℚ
deriving DecidableEq

/-- Builds the result row for one city from the fetch result that finally
produced its reading. -/
def mkRow (city : String) (lat lon : ℚ) (r : FetchResult) : CityRow :=
  ⟨city, lat, lon, r.congestion, r.source, r.current_speed, r.free_flow_speed⟩

/-- The initial per-city values of the orchestrator loop
(`traffic_data.py:257-260`). -/
def unknownResult : FetchResult := ⟨none, "Unknown", none, none⟩

/-- The body of the orchestrator's per-city loop
(`traffic_data.py:252-302`), for one city.  `w`/`s` are the current values
of `api_working`/`api_source`; the `.error` case models the `TypeError`
raised when the tuple assignment at `traffic_data.py:275` unpacks the
`None` that `get_traffic_from_mapmyindia` can return. -/
def processCity (tomtom_key mapmyindia_key : String)
    (outA : NetOutcome TomTomPayload) (outB : NetOutcome RoutePayload)
    (t : SimTime) (city : String) (lat lon : ℚ) (w : Bool) (s : String) :
    Except Unit (CityRow × Bool × String) :=
  let r1 := if tomtom_key ≠ "" then get_traffic_from_tomtom outA else unknownResult
  let live1 : Prop := tomtom_key ≠ "" ∧ r1.congestion.isSome ∧ strContains r1.source "API"
  let w1 := if live1 then true else w
  let s1 := if live1 then "TomTom Traffic API" else s
  if r1.congestion.isNone ∧ mapmyindia_key ≠ "" then
    match get_traffic_from_mapmyindia outB with
    | none => .error ()
    | some r2 =>
      let live2 : Prop := r2.congestion.isSome ∧ strContains r2.source "API"
      let w2 := if live2 then true else w1
      let s2 := if live2 then "MapmyIndia Route API" else s1
      let rf := if r2.congestion.isNone then get_simulated_congestion city lat lon t else r2
      .ok (mkRow city lat lon rf, w2, s2)
  else
    let rf := if r1.congestion.isNone then get_simulated_congestion city lat lon t else r1
    .ok (mkRow city lat lon rf, w1, s1)

/-- The orchestrator loop over the remaining cities, threading the
`api_working` and `api_source` accumulators. -/
def runAux (tomtom_key mapmyindia_key : String)
    (envA : String → NetOutcome TomTomPayload)
    (envB : String → NetOutcome RoutePayload) (t : SimTime) :
    List (String × ℚ × ℚ) → Bool → String →
    Except Unit (List CityRow × Bool × String)
  | [], w, s => .ok ([], w, s)
  | (city, lat, lon) :: rest, w, s =>
    match processCity tomtom_key mapmyindia_key (envA city) (envB city) t city lat lon w s with
    | .error e => .error e
    | .ok (row, w1, s1) =>
      match runAux tomtom_key mapmyindia_key envA envB t rest w1 s1 with
      | .error e => .error e
      | .ok (rows, w2, s2) => .ok (row :: rows, w2, s2)

/-- `get_congestion_for_cities` (`traffic_data.py:229-313`).  The city
mapping is the insertion-ordered list of `(name, (lat, lon))` items; the
per-city network outcomes are supplied by the environments `envA`/`envB`;
`t` is the wall-clock reading.  Python key truthiness is `≠ ""`. -/
def get_congestion_for_cities (city_coords : List (String × ℚ × ℚ))
    (tomtom_key mapmyindia_key : String)
    (envA : String → NetOutcome TomTomPayload)
    (envB : String → NetOutcome RoutePayload) (t : SimTime) :
    Except Unit (List CityRow × Bool × String) :=
  runAux tomtom_key mapmyindia_key envA envB t city_coords false "None"

/-- `congestion_to_color` (`utils.py:19-34`). -/
def congestion_to_color (congestion : ℚ) : String :=
  if congestion < 30 then "#48bb78"
  else if congestion < 60 then "#ecc94b"
  else "#f56565"

/-- `get_congestion_status` (`utils.py:52-67`): `(status_text, emoji, color)`. -/
def get_congestion_status (congestion : ℚ) : String × String × String :=
  if congestion < 30 then ("Free Flow", "🟢", "#48bb78")
  else if congestion < 60 then ("Moderate Traffic", "🟡", "#ecc94b")
  else ("Heavy Congestion", "🔴", "#f56565")


/-! ### Environments and auxiliary definitions for the orchestrator claims -/

/-- Environment in which the primary provider always answers HTTP 401. -/
def envA_dead : String → NetOutcome TomTomPayload := fun _ => .response 401 none

/-- Environment in which the secondary provider answers HTTP 200 with an
empty `routes` array. -/
def envB_empty_routes : String → NetOutcome RoutePayload :=
  fun _ => .response 200 (some ⟨some []⟩)

/-- Environment in which the secondary provider answers HTTP 200 with one
route of distance 0 (so the `distance > 0 and duration > 0` check fails). -/
def envB_zero_distance : String → NetOutcome RoutePayload :=
  fun _ => .response 200 (some ⟨some [⟨some 600, some 0⟩]⟩)

/-- Projects the final `api_source` of a run ("crash" if it raised). -/
def finalSourceName (r : Except Unit (List CityRow × Bool × String)) : String :=
  match r with
  | .ok (_, _, s) => s
  | .error _ => "crash"

/-- Environment in which the primary provider succeeds for city "P" only. -/
def envA_PQ : String → NetOutcome TomTomPayload := fun c =>
  if c = "P" then .response 200 (some ⟨some ⟨some 25, some 50, none, none, none⟩⟩)
  else .response 401 none

/-- Environment in which the secondary provider always succeeds with a
25 km route driven in one hour. -/
def envB_PQ : String → NetOutcome RoutePayload :=
  fun _ => .response 200 (some ⟨some [⟨some 3600, some 25000⟩]⟩)

/-- Environment in which the primary provider always times out. -/
def envA_off : String → NetOutcome TomTomPayload := fun _ => .timeout

/-- Environment in which the secondary provider always times out. -/
def envB_off : String → NetOutcome RoutePayload := fun _ => .timeout

/-- The live-success label a single city contributes to the run-level
`api_source` accumulator, read off from the spec's per-city precedence:
the primary's label when the primary is configured and succeeds, else the
secondary's label when the primary produced no congestion value, the
secondary is configured and succeeds, else nothing. -/
def liveSuccessLabel (tk mk : String) (outA : NetOutcome TomTomPayload)
    (outB : NetOutcome RoutePayload) : Option String :=
  let r1 := if tk ≠ "" then get_traffic_from_tomtom outA else unknownResult
  if tk ≠ "" ∧ r1.congestion.isSome ∧ strContains r1.source "API" then
    some "TomTom Traffic API"
  else if r1.congestion.isNone ∧ mk ≠ "" then
    match get_traffic_from_mapmyindia outB with
    | some r2 =>
      if r2.congestion.isSome ∧ strContains r2.source "API" then
        some "MapmyIndia Route API"
      else none
    | none => none
  else none

/-- Placeholder row used as the default of positional lookups. -/
def dummyRow : CityRow := mkRow "" 0 0 unknownResult

/-! ### Rounding lemmas -/

lemma round1_mono {a b : ℚ} (h : a ≤ b) : round1 a ≤ round1 b := by
  unfold round1
  have hfl : (⌊a * 10 + 1 / 2⌋ : ℤ) ≤ ⌊b * 10 + 1 / 2⌋ :=
    Int.floor_le_floor (by linarith)
  exact (div_le_div_iff_of_pos_right (by norm_num)).mpr (Int.cast_le.mpr hfl)

lemma round1_intCast (n : ℤ) : round1 (n : ℚ) = n := by
  unfold round1
  have h10 : ((n : ℚ)) * 10 + 1 / 2 = ((10 * n : ℤ) : ℚ) + 1 / 2 := by push_cast; ring
  rw [h10, Int.floor_int_add, show (⌊(1 : ℚ) / 2⌋ : ℤ) = 0 by norm_num]
  push_cast
  ring

lemma round1_zero : round1 0 = 0 := by
  simpa using round1_intCast 0

lemma round1_hundred : round1 100 = 100 := by
  simpa using round1_intCast 100

lemma round1_nonneg {q : ℚ} (h : 0 ≤ q) : 0 ≤ round1 q := by
  calc (0 : ℚ) = round1 0 := round1_zero.symm
    _ ≤ round1 q := round1_mono h

lemma round1_nonpos {q : ℚ} (h : q ≤ 0) : round1 q ≤ 0 := by
  calc round1 q ≤ round1 0 := round1_mono h
    _ = 0 := round1_zero

lemma round1_le_100 {q : ℚ} (h : q ≤ 100) : round1 q ≤ 100 := by
  calc round1 q ≤ round1 100 := round1_mono h
    _ = 100 := round1_hundred

lemma round1_ge_100 {q : ℚ} (h : 100 ≤ q) : 100 ≤ round1 q := by
  calc (100 : ℚ) = round1 100 := round1_hundred.symm
    _ ≤ round1 q := round1_mono h

/-- Rounding to one decimal place commutes with clamping to `[0, 100]`:
the code rounds first and clamps afterwards, the spec clamps first. -/
lemma clamp_round1_comm (v : ℚ) :
    max 0 (min 100 (round1 v)) = round1 (max 0 (min 100 v)) := by
  rcases le_or_lt v 0 with h0 | h0
  · have hr : round1 v ≤ 0 := round1_nonpos h0
    rw [min_eq_right (le_trans h0 (by norm_num)), max_eq_left h0,
      min_eq_right (le_trans hr (by norm_num)), max_eq_left hr, round1_zero]
  · rcases le_or_lt v 100 with h1 | h1
    · have ha : 0 ≤ round1 v := round1_nonneg (le_of_lt h0)
      have hb : round1 v ≤ 100 := round1_le_100 h1
      rw [min_eq_right hb, max_eq_right ha, min_eq_right h1,
        max_eq_right (le_of_lt h0)]
    · have hr : 100 ≤ round1 v := round1_ge_100 (le_of_lt h1)
      rw [min_eq_left hr, min_eq_left (le_of_lt h1),
        max_eq_right (by norm_num : (0 : ℚ) ≤ 100), round1_hundred]

/-! ### Claim C6 -/

/-- Claim C6: for every `currentSpeed` and every `freeFlowSpeed > 0`, the
derived congestion equals `(1 - currentSpeed/freeFlowSpeed) * 100` clamped
to `[0, 100]` and rounded to one decimal place; in particular
`deriveCongestion 25 50 = 50`, `deriveCongestion s s = 0` for every
positive `s`, and `deriveCongestion 0 f = 100` for every positive `f`. -/
theorem deriveCongestion_spec (cs ffs : ℚ) (h : 0 < ffs) :
    deriveCongestion cs ffs = round1 (max 0 (min 100 ((1 - cs / ffs) * 100)))
    ∧ deriveCongestion 25 50 = 50
    ∧ deriveCongestion ffs ffs = 0
    ∧ deriveCongestion 0 ffs = 100 := by
  have h50 : round1 50 = 50 := by
    rw [show (50 : ℚ) = ((50 : ℤ) : ℚ) by norm_num, round1_intCast]
  refine ⟨clamp_round1_comm _, ?_, ?_, ?_⟩
  · unfold deriveCongestion
    rw [show ((1 : ℚ) - 25 / 50) * 100 = 50 by norm_num, h50,
      min_eq_right (by norm_num : (50 : ℚ) ≤ 100),
      max_eq_right (by norm_num : (0 : ℚ) ≤ 50)]
  · unfold deriveCongestion
    rw [div_self (ne_of_gt h), show ((1 : ℚ) - 1) * 100 = 0 by norm_num,
      round1_zero, min_eq_right (by norm_num : (0 : ℚ) ≤ 100), max_eq_left le_rfl]
  · unfold deriveCongestion
    rw [zero_div, show ((1 : ℚ) - 0) * 100 = 100 by norm_num, round1_hundred,
      min_eq_right le_rfl, max_eq_right (by norm_num : (0 : ℚ) ≤ 100)]

/-- Witness for C6 at `currentSpeed = 25`, `freeFlowSpeed = 50`. -/
theorem deriveCongestion_spec_witness :
    deriveCongestion 25 50 = round1 (max 0 (min 100 ((1 - 25 / 50) * 100)))
    ∧ deriveCongestion 25 50 = 50
    ∧ deriveCongestion 50 50 = 0
    ∧ deriveCongestion 0 50 = 100 :=
  deriveCongestion_spec 25 50 (by norm_num)

/-! ### Claim C10 -/

/-- Claim C10: for every congestion value, the hex color returned by
`congestion_to_color` equals the color component of the triple returned by
`get_congestion_status`, and both classify with the same thresholds:
below 30 green `#48bb78`, in `[30, 60)` yellow `#ecc94b`, and at 60 or
above red `#f56565`. -/
theorem congestion_to_color_agrees_with_status (c : ℚ) :
    congestion_to_color c = (get_congestion_status c).2.2
    ∧ (c < 30 → congestion_to_color c = "#48bb78")
    ∧ (30 ≤ c → c < 60 → congestion_to_color c = "#ecc94b")
    ∧ (60 ≤ c → congestion_to_color c = "#f56565") := by
  unfold congestion_to_color get_congestion_status
  refine ⟨?_, ?_, ?_, ?_⟩
  · rcases lt_or_le c 30 with h1 | h1
    · simp [h1]
    · rcases lt_or_le c 60 with h2 | h2
      · simp [not_lt.mpr h1, h2]
      · simp [not_lt.mpr h1, not_lt.mpr h2]
  · intro h; simp [h]
  · intro h1 h2; simp [not_lt.mpr h1, h2]
  · intro h
    have h1 : ¬ c < 30 := not_lt.mpr (le_trans (by norm_num) h)
    have h2 : ¬ c < 60 := not_lt.mpr h
    simp [h1, h2]

/-- Witness for C10 at the concrete congestion values 10, 45 and 75. -/
theorem congestion_to_color_agrees_with_status_witness :
    congestion_to_color 10 = (get_congestion_status 10).2.2
    ∧ congestion_to_color 10 = "#48bb78"
    ∧ congestion_to_color 45 = "#ecc94b"
    ∧ congestion_to_color 75 = "#f56565" :=
  ⟨(congestion_to_color_agrees_with_status 10).1,
   (congestion_to_color_agrees_with_status 10).2.1 (by norm_num),
   (congestion_to_color_agrees_with_status 45).2.2.1 (by norm_num) (by norm_num),
   (congestion_to_color_agrees_with_status 75).2.2.2 (by norm_num)⟩

/-! ### Range lemmas for claim C5 -/

lemma deriveCongestion_mem (cs ffs : ℚ) :
    0 ≤ deriveCongestion cs ffs ∧ deriveCongestion cs ffs ≤ 100 := by
  unfold deriveCongestion
  exact ⟨le_max_left _ _, max_le (by norm_num) (min_le_left _ _)⟩

lemma tomtom_congestion_range (o : NetOutcome TomTomPayload) (c : ℚ)
    (h : (get_traffic_from_tomtom o).congestion = some c) : 0 ≤ c ∧ c ≤ 100 := by
  cases o with
  | timeout => simp [get_traffic_from_tomtom] at h
  | connError => simp [get_traffic_from_tomtom] at h
  | exn => simp [get_traffic_from_tomtom] at h
  | response status body =>
    by_cases h200 : status = 200
    · subst h200
      cases body with
      | none => simp [get_traffic_from_tomtom] at h
      | some data =>
        simp only [get_traffic_from_tomtom] at h
        rw [if_true] at h
        by_cases hffs :
            0 < (data.flowSegmentData.getD ⟨none, none, none, none, none⟩).freeFlowSpeed.getD 1
        · rw [if_pos hffs] at h
          have hc := Option.some.inj h
          subst hc
          exact deriveCongestion_mem _ _
        · rw [if_neg hffs] at h
          exact absurd h (by simp)
    · simp only [get_traffic_from_tomtom] at h
      rw [if_neg h200] at h
      split_ifs at h

lemma mapmyindia_congestion_range (o : NetOutcome RoutePayload) (r : FetchResult) (c : ℚ)
    (h1 : get_traffic_from_mapmyindia o = some r) (h2 : r.congestion = some c) :
    0 ≤ c ∧ c ≤ 100 := by
  cases o with
  | timeout =>
    simp only [get_traffic_from_mapmyindia, Option.some.injEq] at h1
    rw [← h1] at h2; simp at h2
  | connError =>
    simp only [get_traffic_from_mapmyindia, Option.some.injEq] at h1
    rw [← h1] at h2; simp at h2
  | exn =>
    simp only [get_traffic_from_mapmyindia, Option.some.injEq] at h1
    rw [← h1] at h2; simp at h2
  | response status body =>
    by_cases h200 : status = 200
    · subst h200
      cases body with
      | none =>
        simp only [get_traffic_from_mapmyindia, if_true, Option.some.injEq] at h1
        rw [← h1] at h2
        simp at h2
      | some data =>
        rcases data with ⟨routes⟩
        rcases routes with _ | ⟨_ | ⟨route, rest⟩⟩
        · simp [get_traffic_from_mapmyindia] at h1
        · simp [get_traffic_from_mapmyindia] at h1
        · simp only [get_traffic_from_mapmyindia] at h1
          rw [if_true] at h1
          by_cases hc : 0 < route.distance.getD 1 ∧ 0 < route.duration.getD 0
          · rw [if_pos hc] at h1
            have hr := Option.some.inj h1
            rw [← hr] at h2
            have hcc := Option.some.inj h2
            subst hcc
            exact deriveCongestion_mem _ _
          · rw [if_neg hc] at h1
            exact absurd h1 (by simp)
    · simp only [get_traffic_from_mapmyindia] at h1
      rw [if_neg h200] at h1
      split_ifs at h1 <;>
        · have hr := Option.some.inj h1
          rw [← hr] at h2
          simp at h2

lemma simBase_range (city : String) (lat lon : ℚ) :
    20 ≤ simBase city lat lon ∧ simBase city lat lon ≤ 59 := by
  unfold simBase
  have h1 : 0 ≤ simSeed city lat lon % 40 := Int.emod_nonneg _ (by norm_num)
  have h2 : simSeed city lat lon % 40 < 40 := Int.emod_lt_of_pos _ (by norm_num)
  omega

lemma rush_factor_pos (h : ℕ) : 0 < rush_factor h := by
  unfold rush_factor
  split_ifs <;> norm_num

lemma weekend_factor_pos (d : ℕ) : 0 < weekend_factor d := by
  unfold weekend_factor
  split_ifs <;> norm_num

lemma city_factors_pos (c : String) : 0 < city_factors c := by
  unfold city_factors
  split_ifs <;> norm_num

lemma simCongestion_range (city : String) (lat lon : ℚ) (t : SimTime) :
    0 ≤ simCongestion city lat lon t ∧ simCongestion city lat lon t ≤ 100 := by
  unfold simCongestion
  have hb : (0 : ℚ) ≤ (simBase city lat lon : ℚ) := by
    have h20 := (simBase_range city lat lon).1
    exact_mod_cast le_trans (by norm_num) h20
  have hprod : 0 ≤ (simBase city lat lon : ℚ) * rush_factor t.hour
      * weekend_factor t.weekday * city_factors city :=
    mul_nonneg (mul_nonneg (mul_nonneg hb (le_of_lt (rush_factor_pos _)))
      (le_of_lt (weekend_factor_pos _))) (le_of_lt (city_factors_pos _))
  exact ⟨round1_nonneg (le_min hprod (by norm_num)), round1_le_100 (min_le_right _ _)⟩

/-! ### Claim C5 -/

/-- Claim C5: every congestion value produced by any component — a
primary-client success, a secondary-client success, or the simulator, for
any inputs — lies in the closed interval `[0, 100]`. -/
theorem congestion_always_in_range :
    (∀ o c, (get_traffic_from_tomtom o).congestion = some c → 0 ≤ c ∧ c ≤ 100)
    ∧ (∀ o r c, get_traffic_from_mapmyindia o = some r → r.congestion = some c →
        0 ≤ c ∧ c ≤ 100)
    ∧ (∀ city lat lon t c, (get_simulated_congestion city lat lon t).congestion = some c →
        0 ≤ c ∧ c ≤ 100) := by
  refine ⟨tomtom_congestion_range, mapmyindia_congestion_range, ?_⟩
  intro city lat lon t c h
  simp only [get_simulated_congestion, Option.some.injEq] at h
  exact h ▸ simCongestion_range city lat lon t

/-- Witness for C5: concrete successes of all three components. -/
theorem congestion_always_in_range_witness :
    (0 ≤ deriveCongestion 25 50 ∧ deriveCongestion 25 50 ≤ 100)
    ∧ (0 ≤ deriveCongestion ((25000 / 1000) / (3600 / 3600)) 50
        ∧ deriveCongestion ((25000 / 1000) / (3600 / 3600)) 50 ≤ 100)
    ∧ (0 ≤ simCongestion "Mumbai" 19 72 ⟨8, 2⟩
        ∧ simCongestion "Mumbai" 19 72 ⟨8, 2⟩ ≤ 100) :=
  ⟨congestion_always_in_range.1
      (.response 200 (some ⟨some ⟨some 25, some 50, none, none, none⟩⟩))
      (deriveCongestion 25 50) (by norm_num [get_traffic_from_tomtom]),
   congestion_always_in_range.2.1
      (.response 200 (some ⟨some [⟨some 3600, some 25000⟩]⟩))
      { congestion := some (deriveCongestion ((25000 / 1000) / (3600 / 3600)) 50)
        source := "MapmyIndia Route API"
        current_speed := some (round1 ((25000 / 1000) / (3600 / 3600)))
        free_flow_speed := some 50 }
      (deriveCongestion ((25000 / 1000) / (3600 / 3600)) 50)
      (by norm_num [get_traffic_from_mapmyindia]) rfl,
   congestion_always_in_range.2.2 "Mumbai" 19 72 ⟨8, 2⟩
      (simCongestion "Mumbai" 19 72 ⟨8, 2⟩) rfl⟩

/-! ### Claim C7 -/

/-- Claim C7: two invocations of the simulator with the same city name,
latitude and longitude, at two times in the same hour-of-day bucket and
the same weekend/weekday class, return identical results. -/
theorem simulator_deterministic (city : String) (lat lon : ℚ) (t1 t2 : SimTime)
    (hh : t1.hour = t2.hour) (hw : 5 ≤ t1.weekday ↔ 5 ≤ t2.weekday) :
    get_simulated_congestion city lat lon t1 = get_simulated_congestion city lat lon t2 := by
  have hwf : weekend_factor t1.weekday = weekend_factor t2.weekday := by
    unfold weekend_factor
    by_cases h5 : 5 ≤ t1.weekday
    · rw [if_pos h5, if_pos (hw.mp h5)]
    · rw [if_neg h5, if_neg (fun hc => h5 (hw.mpr hc))]
  unfold get_simulated_congestion simCongestion
  rw [hh, hwf]

/-- Witness for C7: Mumbai at hour 8 on a Wednesday and on a Thursday. -/
theorem simulator_deterministic_witness :
    get_simulated_congestion "Mumbai" 19.0760 72.8777 ⟨8, 2⟩
      = get_simulated_congestion "Mumbai" 19.0760 72.8777 ⟨8, 3⟩ :=
  simulator_deterministic "Mumbai" 19.0760 72.8777 ⟨8, 2⟩ ⟨8, 3⟩ rfl (by decide)

/-! ### Claim C8 -/

/-- Claim C8 counterexample: the code computes the seed with Python
`int()`, i.e. truncation toward zero, not `floor`; at the negative
latitude `-1/200` (so `lat * 100 = -1/2`) the two disagree. -/
theorem simSeed_not_floor_cex :
    simSeed "A" (-1 / 200 : ℚ) 0 ≠
      (charCodeSum "A" : ℤ) + ⌊((-1 / 200 : ℚ) * 100)⌋ + ⌊((0 : ℚ) * 100)⌋ := by
  have hA : charCodeSum "A" = 65 := by decide
  have hs : simSeed "A" (-1 / 200 : ℚ) 0 = 65 := by
    unfold simSeed
    have h1 : pyInt ((-1 / 200 : ℚ) * 100) = 0 := by
      unfold pyInt
      rw [if_pos (by norm_num : ((-1 / 200 : ℚ) * 100) < 0)]
      norm_num
    have h2 : pyInt ((0 : ℚ) * 100) = 0 := by
      unfold pyInt
      rw [if_neg (by norm_num : ¬ ((0 : ℚ) * 100) < 0)]
      norm_num
    rw [h1, h2, hA]
    norm_num
  have hf : (charCodeSum "A" : ℤ) + ⌊((-1 / 200 : ℚ) * 100)⌋ + ⌊((0 : ℚ) * 100)⌋ = 64 := by
    rw [hA, show (⌊((-1 / 200 : ℚ) * 100)⌋ : ℤ) = -1 by norm_num,
      show (⌊((0 : ℚ) * 100)⌋ : ℤ) = 0 by norm_num]
    norm_num
  rw [hs, hf]
  decide

/-- Claim C8 (amended): the seed is the character-code sum plus the
*truncations* `int(lat*100)`, `int(lon*100)`; this agrees with the
claimed `floor` form whenever `lat*100` and `lon*100` are non-negative;
and `baseCongestion = (seed mod 40) + 20` always lies in `[20, 59]`. -/
theorem simSeed_trunc_and_base_range (city : String) (lat lon : ℚ) :
    simSeed city lat lon = (charCodeSum city : ℤ) + pyInt (lat * 100) + pyInt (lon * 100)
    ∧ (0 ≤ lat * 100 → 0 ≤ lon * 100 →
        simSeed city lat lon = (charCodeSum city : ℤ) + ⌊lat * 100⌋ + ⌊lon * 100⌋)
    ∧ 20 ≤ simBase city lat lon ∧ simBase city lat lon ≤ 59 := by
  refine ⟨rfl, ?_, simBase_range city lat lon⟩
  intro hla hlo
  unfold simSeed pyInt
  rw [if_neg (not_lt.mpr hla), if_neg (not_lt.mpr hlo)]

/-- Witness for C8 (amended) at Pune's coordinates. -/
theorem simSeed_trunc_and_base_range_witness :
    simSeed "Pune" 18.5204 73.8567
      = (charCodeSum "Pune" : ℤ) + pyInt (18.5204 * 100) + pyInt (73.8567 * 100)
    ∧ simSeed "Pune" 18.5204 73.8567
      = (charCodeSum "Pune" : ℤ) + ⌊(18.5204 : ℚ) * 100⌋ + ⌊(73.8567 : ℚ) * 100⌋
    ∧ 20 ≤ simBase "Pune" 18.5204 73.8567 ∧ simBase "Pune" 18.5204 73.8567 ≤ 59 :=
  ⟨(simSeed_trunc_and_base_range "Pune" 18.5204 73.8567).1,
   (simSeed_trunc_and_base_range "Pune" 18.5204 73.8567).2.1 (by norm_num) (by norm_num),
   (simSeed_trunc_and_base_range "Pune" 18.5204 73.8567).2.2⟩

/-! ### Claim C2 -/

/-- Claim C2 counterexample: on an HTTP 200 response whose payload is
malformed (no `flowSegmentData` at all), the defaults
`currentSpeed = 0`, `freeFlowSpeed = 1` pass the `freeFlowSpeed > 0`
check, so the client returns a *success* labeled "TomTom Traffic API"
with congestion 100 — not a parse-failure. -/
theorem tomtom_malformed_payload_returns_success :
    get_traffic_from_tomtom (.response 200 (some ⟨none⟩)) =
      { congestion := some 100
        source := "TomTom Traffic API"
        current_speed := some 0
        free_flow_speed := some 1 } := by
  have hd : deriveCongestion 0 1 = 100 := by
    unfold deriveCongestion
    rw [show ((1 : ℚ) - 0 / 1) * 100 = 100 by norm_num, round1_hundred,
      min_eq_right le_rfl, max_eq_right (by norm_num : (0 : ℚ) ≤ 100)]
  simp only [get_traffic_from_tomtom, if_true, Option.getD_none, Option.getD_some]
  rw [if_pos (by norm_num : (0 : ℚ) < 1), hd]

/-- Claim C2 (amended): on an HTTP 200 response whose payload carries an
explicit non-positive `freeFlowSpeed`, the client returns a parse-failure
(no congestion value, label "TomTom Failed"), never a success labeled
"TomTom Traffic API".  (Payloads with *missing* speed fields instead get
defaults `currentSpeed = 0`, `freeFlowSpeed = 1` and yield a success, as
the counterexample shows.) -/
theorem tomtom_nonpositive_freeflow_parse_failure (fd : FlowSegmentData) (v : ℚ)
    (hv : fd.freeFlowSpeed = some v) (hle : v ≤ 0) :
    get_traffic_from_tomtom (.response 200 (some ⟨some fd⟩)) =
      ⟨none, "TomTom Failed", none, none⟩
    ∧ (get_traffic_from_tomtom (.response 200 (some ⟨some fd⟩))).source
        ≠ "TomTom Traffic API" := by
  have hmain : get_traffic_from_tomtom (.response 200 (some ⟨some fd⟩)) =
      ⟨none, "TomTom Failed", none, none⟩ := by
    simp only [get_traffic_from_tomtom, if_true, Option.getD_some, hv]
    rw [if_neg (not_lt.mpr hle)]
  refine ⟨hmain, ?_⟩
  rw [hmain]
  decide

/-- Witness for C2 (amended): a 200 payload with `freeFlowSpeed = 0`. -/
theorem tomtom_nonpositive_freeflow_parse_failure_witness :
    get_traffic_from_tomtom
        (.response 200 (some ⟨some ⟨some 10, some 0, none, none, none⟩⟩)) =
      ⟨none, "TomTom Failed", none, none⟩
    ∧ (get_traffic_from_tomtom
        (.response 200 (some ⟨some ⟨some 10, some 0, none, none, none⟩⟩))).source
        ≠ "TomTom Traffic API" :=
  tomtom_nonpositive_freeflow_parse_failure ⟨some 10, some 0, none, none, none⟩ 0 rfl le_rfl

/-! ### Success-label lemmas for the orchestrator claims -/

lemma strContains_tomtom_api : strContains "TomTom Traffic API" "API" = true := by decide

lemma strContains_mapmyindia_api : strContains "MapmyIndia Route API" "API" = true := by
  decide

/-- A primary-client result carrying a congestion value is always the
success record labeled "TomTom Traffic API". -/
lemma tomtom_success_source (o : NetOutcome TomTomPayload)
    (h : (get_traffic_from_tomtom o).congestion.isSome = true) :
    (get_traffic_from_tomtom o).source = "TomTom Traffic API" := by
  cases o with
  | timeout => simp [get_traffic_from_tomtom] at h
  | connError => simp [get_traffic_from_tomtom] at h
  | exn => simp [get_traffic_from_tomtom] at h
  | response status body =>
    by_cases h200 : status = 200
    · subst h200
      cases body with
      | none => simp [get_traffic_from_tomtom] at h
      | some data =>
        simp only [get_traffic_from_tomtom, if_true] at h ⊢
        by_cases hffs :
            0 < (data.flowSegmentData.getD ⟨none, none, none, none, none⟩).freeFlowSpeed.getD 1
        · rw [if_pos hffs]
        · rw [if_neg hffs] at h
          simp at h
    · simp only [get_traffic_from_tomtom] at h ⊢
      rw [if_neg h200] at h
      split_ifs at h <;> simp at h

/-! ### Claim C1 -/

/-- Claim C1 is contradicted by the code (code bug): with the secondary
key configured, a secondary-client HTTP 200 response whose body lacks a
non-empty `routes` array makes `get_traffic_from_mapmyindia` fall off the
end of its body and return `None`; the orchestrator's tuple unpacking of
that `None` raises a `TypeError`, so the run aborts with an exception and
produces no row — the spec requires all Client B failures to be recovered
by fallback, with a row for every city. -/
theorem orchestrator_crash_on_missing_routes :
    get_congestion_for_cities [("Mumbai", 19.0760, 72.8777)] "" "mk"
      envA_dead envB_empty_routes ⟨8, 2⟩ = .error () := rfl

/-! ### Claim C4 -/

/-- Claim C4 is contradicted by the code at the same root cause (code
bug): for this non-empty city mapping and key configuration the
orchestrator raises instead of returning one reading per city — the
secondary client's 200 response with a zero-distance route makes it
return `None`, which crashes the orchestrator's tuple unpacking. -/
theorem orchestrator_missing_row_on_invalid_route :
    get_congestion_for_cities [("Delhi", 28.7041, 77.1025)] "kX" "kY"
      envA_dead envB_zero_distance ⟨9, 1⟩ = .error () := rfl

/-! ### Claim C3 -/

/-- Claim C3 counterexample: the primary client succeeds for the first
city "P", yet because the second city "Q" resolves via the secondary
client, the returned `activeSourceName` is the secondary's name — it
names the *last* live success, not the first, and primary does not take
precedence across the run. -/
theorem activeSource_not_first_success_cex :
    (get_traffic_from_tomtom (envA_PQ "P")).congestion.isSome = true
    ∧ finalSourceName (get_congestion_for_cities [("P", 1, 1), ("Q", 2, 2)] "ka" "kb"
        envA_PQ envB_PQ ⟨8, 2⟩) = "MapmyIndia Route API"
    ∧ finalSourceName (get_congestion_for_cities [("P", 1, 1), ("Q", 2, 2)] "ka" "kb"
        envA_PQ envB_PQ ⟨8, 2⟩) ≠ "TomTom Traffic API" := by
  refine ⟨rfl, rfl, ?_⟩
  rw [show finalSourceName (get_congestion_for_cities [("P", 1, 1), ("Q", 2, 2)] "ka" "kb"
      envA_PQ envB_PQ ⟨8, 2⟩) = "MapmyIndia Route API" from rfl]
  decide

lemma isSome_isNone_absurd {α : Type} {o : Option α}
    (h1 : o.isSome = true) (h2 : o.isNone = true) : False := by
  cases o <;> simp_all

/-- Per-city step: the `api_source` value after one city is the city's
live-success label when there is one, and the incoming value otherwise. -/
lemma processCity_apiSource (tk mk : String) (outA : NetOutcome TomTomPayload)
    (outB : NetOutcome RoutePayload) (t : SimTime) (city : String) (lat lon : ℚ)
    (w : Bool) (s : String) (row : CityRow) (w' : Bool) (s' : String)
    (h : processCity tk mk outA outB t city lat lon w s = .ok (row, w', s')) :
    s' = (liveSuccessLabel tk mk outA outB).getD s := by
  simp only [processCity] at h
  simp only [liveSuccessLabel]
  by_cases hP1 : tk ≠ ""
      ∧ (if tk ≠ "" then get_traffic_from_tomtom outA else unknownResult).congestion.isSome = true
      ∧ strContains (if tk ≠ "" then get_traffic_from_tomtom outA else unknownResult).source "API"
        = true
  · have hC1false : ¬((if tk ≠ "" then get_traffic_from_tomtom outA
        else unknownResult).congestion.isNone = true ∧ mk ≠ "") := by
      rintro ⟨hn, -⟩
      exact isSome_isNone_absurd hP1.2.1 hn
    rw [if_neg hC1false] at h
    simp only [Except.ok.injEq, Prod.mk.injEq] at h
    obtain ⟨-, -, hs⟩ := h
    rw [if_pos hP1] at hs
    rw [if_pos hP1, Option.getD_some]
    exact hs.symm
  · rw [if_neg hP1]
    by_cases hC1 : (if tk ≠ "" then get_traffic_from_tomtom outA
        else unknownResult).congestion.isNone = true ∧ mk ≠ ""
    · rw [if_pos hC1] at h
      rw [if_pos hC1]
      cases hB : get_traffic_from_mapmyindia outB with
      | none =>
        rw [hB] at h
        exact absurd h (by simp)
      | some r2 =>
        rw [hB] at h
        dsimp only at h
        dsimp only
        simp only [Except.ok.injEq, Prod.mk.injEq] at h
        obtain ⟨-, -, hs⟩ := h
        by_cases hP2 : r2.congestion.isSome = true ∧ strContains r2.source "API" = true
        · rw [if_pos hP2] at hs
          rw [if_pos hP2, Option.getD_some]
          exact hs.symm
        · rw [if_neg hP2, if_neg hP1] at hs
          rw [if_neg hP2, Option.getD_none]
          exact hs.symm
    · rw [if_neg hC1] at h
      rw [if_neg hC1]
      simp only [Except.ok.injEq, Prod.mk.injEq] at h
      obtain ⟨-, -, hs⟩ := h
      rw [if_neg hP1] at hs
      rw [Option.getD_none]
      exact hs.symm

lemma getLast?_cons_getD {α : Type} (l : α) (L : List α) (d : α) :
    ((l :: L).getLast?).getD d = (L.getLast?).getD l := by
  induction L generalizing l d with
  | nil => rfl
  | cons b t ih =>
    rw [List.getLast?_cons_cons, ih b d, ih b l]

/-- Run-level accumulation: on a completed run, the final `api_source` is
the label of the last city with a live success, defaulting to the initial
value when no city had one. -/
lemma runAux_apiSource (tk mk : String) (envA : String → NetOutcome TomTomPayload)
    (envB : String → NetOutcome RoutePayload) (t : SimTime) :
    ∀ (cities : List (String × ℚ × ℚ)) (w : Bool) (s : String)
      (rows : List CityRow) (w' : Bool) (s' : String),
      runAux tk mk envA envB t cities w s = .ok (rows, w', s') →
      s' = ((cities.filterMap fun x =>
          liveSuccessLabel tk mk (envA x.1) (envB x.1)).getLast?).getD s := by
  intro cities
  induction cities with
  | nil =>
    intro w s rows w' s' h
    simp only [runAux, Except.ok.injEq, Prod.mk.injEq] at h
    obtain ⟨-, -, hs⟩ := h
    simp [← hs]
  | cons head rest ih =>
    obtain ⟨c, la, lo⟩ := head
    intro w s rows w' s' h
    simp only [runAux] at h
    cases hp : processCity tk mk (envA c) (envB c) t c la lo w s with
    | error e =>
      rw [hp] at h
      exact absurd h (by simp)
    | ok p =>
      obtain ⟨row, w1, s1⟩ := p
      rw [hp] at h
      dsimp only at h
      cases hr : runAux tk mk envA envB t rest w1 s1 with
      | error e =>
        rw [hr] at h
        exact absurd h (by simp)
      | ok q =>
        obtain ⟨rows2, w2, s2⟩ := q
        rw [hr] at h
        dsimp only at h
        simp only [Except.ok.injEq, Prod.mk.injEq] at h
        obtain ⟨-, -, hs2⟩ := h
        have hstep := processCity_apiSource tk mk (envA c) (envB c) t c la lo w s row w1 s1 hp
        have hih := ih w1 s1 rows2 w2 s2 hr
        rw [List.filterMap_cons]
        cases hl : liveSuccessLabel tk mk (envA c) (envB c) with
        | none =>
          rw [hl, Option.getD_none] at hstep
          rw [← hs2, hih, hstep]
        | some l =>
          rw [hl, Option.getD_some] at hstep
          rw [← hs2, hih, hstep, getLast?_cons_getD]

/-- Claim C3 (amended): on a completed run, `activeSourceName` names the
live source of the *last* live success across the whole run — each live
success overwrites the previous name, so a later secondary success
replaces an earlier primary one; when no city had a live success it stays
"None". -/
theorem activeSource_is_last_live_success (cities : List (String × ℚ × ℚ))
    (tk mk : String) (envA : String → NetOutcome TomTomPayload)
    (envB : String → NetOutcome RoutePayload) (t : SimTime)
    (rows : List CityRow) (w : Bool) (s : String)
    (h : get_congestion_for_cities cities tk mk envA envB t = .ok (rows, w, s)) :
    s = ((cities.filterMap fun x =>
        liveSuccessLabel tk mk (envA x.1) (envB x.1)).getLast?).getD "None" :=
  runAux_apiSource tk mk envA envB t cities false "None" rows w s h

/-- Witness for C3 (amended): a one-city run with no keys configured. -/
theorem activeSource_is_last_live_success_witness :
    "None" = ((([(("X" : String), (0 : ℚ), (0 : ℚ))].filterMap fun x =>
        liveSuccessLabel "" "" (envA_off x.1) (envB_off x.1)).getLast?).getD "None") :=
  activeSource_is_last_live_success [("X", 0, 0)] "" "" envA_off envB_off ⟨8, 2⟩
    [mkRow "X" 0 0 (get_simulated_congestion "X" 0 0 ⟨8, 2⟩)] false "None" rfl

/-! ### Claim C9 -/

/-- When the primary key is configured and the primary client succeeds,
the per-city step resolves by the primary alone: the row is built from
the primary's result and the run flags record a primary live success. -/
lemma processCity_primary_success (tk mk : String) (outA : NetOutcome TomTomPayload)
    (outB : NetOutcome RoutePayload) (t : SimTime) (city : String) (lat lon : ℚ)
    (w : Bool) (s : String) (htk : tk ≠ "")
    (hsucc : (get_traffic_from_tomtom outA).congestion.isSome = true) :
    processCity tk mk outA outB t city lat lon w s =
      .ok (mkRow city lat lon (get_traffic_from_tomtom outA), true, "TomTom Traffic API") := by
  have hsrc := tomtom_success_source outA hsucc
  simp only [processCity]
  rw [if_pos htk]
  have hlive : tk ≠ "" ∧ (get_traffic_from_tomtom outA).congestion.isSome = true
      ∧ strContains (get_traffic_from_tomtom outA).source "API" = true :=
    ⟨htk, hsucc, by rw [hsrc]; exact strContains_tomtom_api⟩
  have hnotnone : ¬((get_traffic_from_tomtom outA).congestion.isNone = true) :=
    fun hn => isSome_isNone_absurd hsucc hn
  have hC1false : ¬((get_traffic_from_tomtom outA).congestion.isNone = true ∧ mk ≠ "") := by
    rintro ⟨hn, -⟩
    exact hnotnone hn
  rw [if_neg hC1false, if_neg hnotnone, if_pos hlive, if_pos hlive]

/-- Run-level lifting: in any completed run, a city whose primary fetch
succeeded (with the primary key configured) gets exactly the row built
from the primary's result. -/
lemma runAux_primary_success_row (tk mk : String)
    (envA : String → NetOutcome TomTomPayload) (envB : String → NetOutcome RoutePayload)
    (t : SimTime) (htk : tk ≠ "") :
    ∀ (cities : List (String × ℚ × ℚ)) (w : Bool) (s : String)
      (rows : List CityRow) (w' : Bool) (s' : String),
      runAux tk mk envA envB t cities w s = .ok (rows, w', s') →
      ∀ i, i < cities.length →
        (get_traffic_from_tomtom (envA (cities.getD i ("", 0, 0)).1)).congestion.isSome = true →
        rows.getD i dummyRow =
          mkRow (cities.getD i ("", 0, 0)).1 (cities.getD i ("", 0, 0)).2.1
            (cities.getD i ("", 0, 0)).2.2
            (get_traffic_from_tomtom (envA (cities.getD i ("", 0, 0)).1)) := by
  intro cities
  induction cities with
  | nil =>
    intro w s rows w' s' h i hi hsucc
    exact absurd hi (by simp)
  | cons head rest ih =>
    obtain ⟨c, la, lo⟩ := head
    intro w s rows w' s' h i hi hsucc
    simp only [runAux] at h
    cases hp : processCity tk mk (envA c) (envB c) t c la lo w s with
    | error e =>
      rw [hp] at h
      exact absurd h (by simp)
    | ok p =>
      obtain ⟨row, w1, s1⟩ := p
      rw [hp] at h
      dsimp only at h
      cases hr : runAux tk mk envA envB t rest w1 s1 with
      | error e =>
        rw [hr] at h
        exact absurd h (by simp)
      | ok q =>
        obtain ⟨rows2, w2, s2⟩ := q
        rw [hr] at h
        dsimp only at h
        simp only [Except.ok.injEq, Prod.mk.injEq] at h
        obtain ⟨hrows, -, -⟩ := h
        cases i with
        | zero =>
          rw [← hrows]
          simp only [List.getD_cons_zero] at hsucc ⊢
          have hchar := processCity_primary_success tk mk (envA c) (envB c) t c la lo w s
            htk hsucc
          rw [hp] at hchar
          simp only [Except.ok.injEq, Prod.mk.injEq] at hchar
          exact hchar.1
        | succ j =>
          rw [← hrows]
          simp only [List.getD_cons_succ] at hsucc ⊢
          exact ih w1 s1 rows2 w2 s2 hr j (Nat.lt_of_succ_lt_succ hi) hsucc

/-- Claim C9: in any completed run, for every city whose primary key is
configured and whose primary fetch succeeds, the resulting reading is
built from the primary's result and carries the primary's success label —
never the secondary's or the simulator's label. -/
theorem primary_success_determines_row (cities : List (String × ℚ × ℚ))
    (tk mk : String) (envA : String → NetOutcome TomTomPayload)
    (envB : String → NetOutcome RoutePayload) (t : SimTime)
    (rows : List CityRow) (w : Bool) (s : String)
    (hrun : get_congestion_for_cities cities tk mk envA envB t = .ok (rows, w, s))
    (i : ℕ) (hi : i < cities.length) (htk : tk ≠ "")
    (hsucc : (get_traffic_from_tomtom (envA (cities.getD i ("", 0, 0)).1)).congestion.isSome
      = true) :
    rows.getD i dummyRow =
      mkRow (cities.getD i ("", 0, 0)).1 (cities.getD i ("", 0, 0)).2.1
        (cities.getD i ("", 0, 0)).2.2
        (get_traffic_from_tomtom (envA (cities.getD i ("", 0, 0)).1))
    ∧ (rows.getD i dummyRow).source = "TomTom Traffic API"
    ∧ (rows.getD i dummyRow).source ≠ "MapmyIndia Route API"
    ∧ (rows.getD i dummyRow).source ≠ "AI Prediction Model" := by
  have hrow := runAux_primary_success_row tk mk envA envB t htk cities false "None"
    rows w s hrun i hi hsucc
  have hsrc := tomtom_success_source _ hsucc
  have hsrc2 : (rows.getD i dummyRow).source = "TomTom Traffic API" := by
    rw [hrow]
    exact hsrc
  refine ⟨hrow, hsrc2, ?_, ?_⟩
  · rw [hsrc2]
    decide
  · rw [hsrc2]
    decide

/-- Witness for C9: a one-city run in which the primary succeeds. -/
theorem primary_success_determines_row_witness :
    [mkRow "P" 1 1 (get_traffic_from_tomtom (envA_PQ "P"))].getD 0 dummyRow =
        mkRow "P" 1 1 (get_traffic_from_tomtom (envA_PQ "P"))
    ∧ ([mkRow "P" 1 1 (get_traffic_from_tomtom (envA_PQ "P"))].getD 0 dummyRow).source
        = "TomTom Traffic API"
    ∧ ([mkRow "P" 1 1 (get_traffic_from_tomtom (envA_PQ "P"))].getD 0 dummyRow).source
        ≠ "MapmyIndia Route API"
    ∧ ([mkRow "P" 1 1 (get_traffic_from_tomtom (envA_PQ "P"))].getD 0 dummyRow).source
        ≠ "AI Prediction Model" :=
  primary_success_determines_row [("P", 1, 1)] "ka" "" envA_PQ envB_PQ ⟨8, 2⟩
    [mkRow "P" 1 1 (get_traffic_from_tomtom (envA_PQ "P"))] true "TomTom Traffic API" rfl
    0 (by decide) (by decide) rfl
